import Mathlib

/-!
Shallow embedding of the amana-reserve, amana-hai, amana-actions and
amana-dao Solana programs (tawf-labs/amana-reserve), together with proofs
about the claims of the specification.

Machine integers are modelled as `Nat` (for the unsigned `u64`/`u16`
fields) and `Int` (for the signed `i64` fields).  The Rust `checked_*`
operations are modelled by `Option`-valued functions that return `none`
exactly when the Rust operation would return `None`; a program handler
that aborts (Anchor `require!`/`?`) is modelled as an `Except`-valued
function whose `error` result leaves every account unchanged, matching
Anchor's all-or-nothing transaction semantics.  A Rust panic (division by
zero, arithmetic overflow on an unchecked operation) is modelled as
`none` at the function where it occurs, since it likewise aborts the
whole transaction.
-/

set_option maxRecDepth 16000

namespace Amana

/-- Rust `u64::checked_add`. -/
def checkedAdd64 (a b : Nat) : Option Nat :=
  if a + b < 2 ^ 64 then some (a + b) else none

/-- Rust `u64::checked_sub`. -/
def checkedSub64 (a b : Nat) : Option Nat :=
  if b ≤ a then some (a - b) else none

/-- Rust `u64::checked_mul`. -/
def checkedMul64 (a b : Nat) : Option Nat :=
  if a * b < 2 ^ 64 then some (a * b) else none

/-- Rust `u64::checked_div`: fails only on a zero divisor. -/
def checkedDiv64 (a b : Nat) : Option Nat :=
  if b = 0 then none else some (a / b)

/-- Rust `u16` multiplication, `none` when it would overflow (a panic). -/
def checkedMul16 (a b : Nat) : Option Nat :=
  if a * b < 2 ^ 16 then some (a * b) else none

/-- Rust `u16` addition, `none` when it would overflow (a panic). -/
def checkedAdd16 (a b : Nat) : Option Nat :=
  if a + b < 2 ^ 16 then some (a + b) else none

/-- Rust `u16::saturating_add`. -/
def saturatingAdd16 (a b : Nat) : Nat := min (a + b) (2 ^ 16 - 1)

/-- Rust `u16::saturating_sub` (on `Nat`, subtraction already floors at 0). -/
def saturatingSub16 (a b : Nat) : Nat := a - b

/-! ## amana-reserve: data model -/

/-- `ActivityStatus` of amana-reserve/src/lib.rs. -/
inductive ActivityStatus where
  | Proposed
  | Approved
  | Active
  | Completed
  | Rejected
deriving DecidableEq, Repr

/-- Errors of amana-reserve/src/lib.rs (`AmanaError`). -/
inductive AmanaError where
  | InsufficientContribution
  | MaxParticipantsReached
  | InvalidCapitalAmount
  | InvalidActivityStatus
  | MathOverflow
  | InvalidAmount
  | InsufficientBalance
  | InsufficientLiquidity
  | InactiveParticipant
  | Unauthorized
  | InsufficientCapital
deriving DecidableEq, Repr

/-- The `Reserve` account.  `admin` and `bump` are identity/storage
plumbing delegated to external collaborators and carry no logic, so they
are omitted. -/
structure Reserve where
  min_capital_contribution : Nat
  max_participants : Nat
  total_capital : Nat
  participant_count : Nat
deriving DecidableEq, Repr

/-- The `Activity` account (identities are modelled as `Nat`; `bump`
omitted as storage plumbing). -/
structure Activity where
  activity_id : Nat
  initiator : Nat
  capital_required : Nat
  capital_deployed : Nat
  status : ActivityStatus
  created_at : Int
  completed_at : Int
  outcome : Int
  is_validated : Bool
deriving DecidableEq, Repr

/-! ## amana-reserve: operations -/

/-- `propose_activity` of amana-reserve: requires
`capital_required > 0 && capital_required <= reserve.total_capital` and
creates the activity in status `Proposed`. -/
def propose_activity (r : Reserve) (activity_id initiator capital_required : Nat)
    (now : Int) : Except AmanaError Activity :=
  if capital_required > 0 ∧ capital_required ≤ r.total_capital then
    Except.ok
      { activity_id := activity_id
        initiator := initiator
        capital_required := capital_required
        capital_deployed := 0
        status := ActivityStatus.Proposed
        created_at := now
        completed_at := 0
        outcome := 0
        is_validated := false }
  else Except.error AmanaError.InvalidCapitalAmount

/-- `approve_activity` of amana-reserve: legal only from `Proposed`;
moves `capital_required` out of the reserve into `capital_deployed` with
a checked subtraction. -/
def approve_activity (r : Reserve) (a : Activity) :
    Except AmanaError (Reserve × Activity) :=
  if a.status ≠ ActivityStatus.Proposed then
    Except.error AmanaError.InvalidActivityStatus
  else
    match checkedSub64 r.total_capital a.capital_required with
    | none => Except.error AmanaError.MathOverflow
    | some t =>
        Except.ok
          ({ r with total_capital := t },
           { a with status := ActivityStatus.Approved
                    capital_deployed := a.capital_required })

/-- `complete_activity` of amana-reserve: legal only from `Approved`;
settles the deployed capital back into the reserve adjusted by the
signed `outcome` (`i64`), and marks the activity `Completed` and
validated.  In the loss branch with `loss >= capital_deployed` the
source performs no reserve update at all. -/
def complete_activity (r : Reserve) (a : Activity) (outcome : Int) (now : Int) :
    Except AmanaError (Reserve × Activity) :=
  if a.status ≠ ActivityStatus.Approved then
    Except.error AmanaError.InvalidActivityStatus
  else
    let a' := { a with status := ActivityStatus.Completed
                       completed_at := now
                       outcome := outcome
                       is_validated := true }
    let returned_capital := a.capital_deployed
    if 0 < outcome then
      match (checkedAdd64 r.total_capital returned_capital).bind
          (fun v => checkedAdd64 v outcome.toNat) with
      | none => Except.error AmanaError.MathOverflow
      | some t => Except.ok ({ r with total_capital := t }, a')
    else if outcome < 0 then
      let loss := outcome.natAbs
      if loss < returned_capital then
        match (checkedAdd64 r.total_capital returned_capital).bind
            (fun v => checkedSub64 v loss) with
        | none => Except.error AmanaError.MathOverflow
        | some t => Except.ok ({ r with total_capital := t }, a')
      else Except.ok (r, a')
    else
      match checkedAdd64 r.total_capital returned_capital with
      | none => Except.error AmanaError.MathOverflow
      | some t => Except.ok ({ r with total_capital := t }, a')

/-- `deploy_capital_realtime` of amana-reserve: requires only
`amount <= reserve.total_capital`; it performs NO status check, sets
`capital_deployed := amount` and `status := Active`, and subtracts the
amount from the reserve (the unchecked `-=` cannot underflow under the
guard). -/
def deploy_capital_realtime (r : Reserve) (a : Activity) (amount : Nat) :
    Except AmanaError (Reserve × Activity) :=
  if amount ≤ r.total_capital then
    Except.ok
      ({ r with total_capital := r.total_capital - amount },
       { a with capital_deployed := amount
                status := ActivityStatus.Active })
  else Except.error AmanaError.InsufficientCapital

/-! ## amana-hai: data model -/

/-- Errors of amana-hai/src/lib.rs (`HaiError`). -/
inductive HaiError where
  | MathOverflow
  | InvalidWeights
  | Unauthorized
deriving DecidableEq, Repr

/-- The `Hai` account of amana-hai (`admin` and `bump` omitted as
identity/storage plumbing).  `current_score` and the weights are `u16`
fields; the counters are `u64`. -/
structure Hai where
  current_score : Nat
  total_activities : Nat
  compliant_activities : Nat
  asset_backed_activities : Nat
  economic_value_activities : Nat
  snapshot_count : Nat
  compliance_weight : Nat
  asset_backing_weight : Nat
  economic_value_weight : Nat
  validator_participation_weight : Nat
deriving DecidableEq, Repr

/-- `initialize` of amana-hai.  Anchor's `init` constraint
zero-initializes the fresh account and the handler assigns only
`current_score`, the counters and `snapshot_count`; the four weight
fields are never assigned, so they remain 0. -/
def init_hai (initial_score : Nat) : Hai :=
  { current_score := initial_score
    total_activities := 0
    compliant_activities := 0
    asset_backed_activities := 0
    economic_value_activities := 0
    snapshot_count := 0
    compliance_weight := 0
    asset_backing_weight := 0
    economic_value_weight := 0
    validator_participation_weight := 0 }

/-- `calculate_hai_score` of amana-hai.  The three per-activity
components use checked multiplication and checked division
(`.ok_or(MathOverflow)?`).  In the weighted sum, only the compliance
term uses checked multiplication and division; the asset-backing,
economic-value and validator terms use `.unwrap_or(0)` on the checked
multiplication followed by a plain division by 10000.  The final
result is clamped with `.min(10000)` before the `u16` cast. -/
def calculate_hai_score (hai : Hai) : Except HaiError Nat :=
  if hai.total_activities = 0 then Except.ok hai.current_score
  else
    match (checkedMul64 hai.compliant_activities 10000).bind
        (fun v => checkedDiv64 v hai.total_activities) with
    | none => Except.error HaiError.MathOverflow
    | some compliance_score =>
      match (checkedMul64 hai.asset_backed_activities 10000).bind
          (fun v => checkedDiv64 v hai.total_activities) with
      | none => Except.error HaiError.MathOverflow
      | some asset_backing_score =>
        match (checkedMul64 hai.economic_value_activities 10000).bind
            (fun v => checkedDiv64 v hai.total_activities) with
        | none => Except.error HaiError.MathOverflow
        | some economic_value_score =>
          let validator_participation_score : Nat := 8000
          match ((((checkedMul64 compliance_score hai.compliance_weight).bind
              (fun v => checkedDiv64 v 10000)).bind
              (fun v => checkedAdd64 v
                ((checkedMul64 asset_backing_score hai.asset_backing_weight).getD 0
                  / 10000))).bind
              (fun v => checkedAdd64 v
                ((checkedMul64 economic_value_score hai.economic_value_weight).getD 0
                  / 10000))).bind
              (fun v => checkedAdd64 v
                ((checkedMul64 validator_participation_score
                    hai.validator_participation_weight).getD 0
                  / 10000)) with
          | none => Except.error HaiError.MathOverflow
          | some score => Except.ok (min score 10000)

/-- Modelled from the spec: the weighted-score computation as §4.3 of the
spec describes it, with EVERY multiplication and division checked and
any overflow fatal (`MathOverflow`).  This definition follows the spec's
words, not the source; it exists only to be compared with
`calculate_hai_score`, whose asset-backing, economic-value and validator
terms actually use `.unwrap_or(0)`. -/
def calculate_hai_score_spec (hai : Hai) : Except HaiError Nat :=
  if hai.total_activities = 0 then Except.ok hai.current_score
  else
    match (checkedMul64 hai.compliant_activities 10000).bind
        (fun v => checkedDiv64 v hai.total_activities) with
    | none => Except.error HaiError.MathOverflow
    | some compliance_score =>
      match (checkedMul64 hai.asset_backed_activities 10000).bind
          (fun v => checkedDiv64 v hai.total_activities) with
      | none => Except.error HaiError.MathOverflow
      | some asset_backing_score =>
        match (checkedMul64 hai.economic_value_activities 10000).bind
            (fun v => checkedDiv64 v hai.total_activities) with
        | none => Except.error HaiError.MathOverflow
        | some economic_value_score =>
          let validator_participation_score : Nat := 8000
          match ((((checkedMul64 compliance_score hai.compliance_weight).bind
              (fun v => checkedDiv64 v 10000)).bind
              (fun v => ((checkedMul64 asset_backing_score hai.asset_backing_weight).bind
                (fun w => checkedDiv64 w 10000)).bind
                (fun w => checkedAdd64 v w))).bind
              (fun v => ((checkedMul64 economic_value_score hai.economic_value_weight).bind
                (fun w => checkedDiv64 w 10000)).bind
                (fun w => checkedAdd64 v w))).bind
              (fun v => ((checkedMul64 validator_participation_score
                  hai.validator_participation_weight).bind
                (fun w => checkedDiv64 w 10000)).bind
                (fun w => checkedAdd64 v w)) with
          | none => Except.error HaiError.MathOverflow
          | some score => Except.ok (min score 10000)

/-- `track_activity` of amana-hai: checked increments of the cumulative
counters followed by a full score recomputation.  The per-activity
`ActivityMetrics` account records the inputs verbatim and feeds nothing
back into the `Hai` state, so it is not modelled. -/
def track_activity (hai : Hai)
    (is_compliant is_asset_backed has_real_economic_value : Bool) :
    Except HaiError Hai :=
  match checkedAdd64 hai.total_activities 1 with
  | none => Except.error HaiError.MathOverflow
  | some t =>
    match (if is_compliant then checkedAdd64 hai.compliant_activities 1
           else some hai.compliant_activities) with
    | none => Except.error HaiError.MathOverflow
    | some c =>
      match (if is_asset_backed then checkedAdd64 hai.asset_backed_activities 1
             else some hai.asset_backed_activities) with
      | none => Except.error HaiError.MathOverflow
      | some ab =>
        match (if has_real_economic_value then
                 checkedAdd64 hai.economic_value_activities 1
               else some hai.economic_value_activities) with
        | none => Except.error HaiError.MathOverflow
        | some ev =>
          let hai1 := { hai with total_activities := t
                                 compliant_activities := c
                                 asset_backed_activities := ab
                                 economic_value_activities := ev }
          match calculate_hai_score hai1 with
          | Except.error e => Except.error e
          | Except.ok s => Except.ok { hai1 with current_score := s }

/-- `update_weights` of amana-hai: the `u32` checked sum of four `u16`
weights (which cannot overflow, so it is modelled as plain addition)
must equal exactly 10000, else `InvalidWeights`; on success the four
weights are stored and the score recomputed. -/
def update_weights (hai : Hai)
    (compliance_weight asset_backing_weight economic_value_weight
      validator_participation_weight : Nat) : Except HaiError Hai :=
  let total_weight := compliance_weight + asset_backing_weight
    + economic_value_weight + validator_participation_weight
  if total_weight ≠ 10000 then Except.error HaiError.InvalidWeights
  else
    let hai1 := { hai with compliance_weight := compliance_weight
                           asset_backing_weight := asset_backing_weight
                           economic_value_weight := economic_value_weight
                           validator_participation_weight :=
                             validator_participation_weight }
    match calculate_hai_score hai1 with
    | Except.error e => Except.error e
    | Except.ok s => Except.ok { hai1 with current_score := s }

/-- `update_hai_realtime` of amana-hai: saturating `u16` adjustment by a
signed `i16` delta, then a `.min(10000)` cap; it never fails. -/
def update_hai_realtime (hai : Hai) (compliance_delta : Int) :
    Except HaiError Hai :=
  let new_score :=
    if 0 ≤ compliance_delta then
      saturatingAdd16 hai.current_score compliance_delta.toNat
    else
      saturatingSub16 hai.current_score (-compliance_delta).toNat
  Except.ok { hai with current_score := min new_score 10000 }

/-- `select_data_sources_with_randomness` of amana-hai: picks
`(randomness % 3) + 1` indices `(randomness + i) % sources.len()`,
skipping duplicates. -/
def select_data_sources_with_randomness (sources : List Nat) (randomness : Nat) :
    List Nat :=
  if sources.isEmpty then []
  else
    let selection_count := randomness % 3 + 1
    (List.range (min selection_count sources.length)).foldl
      (fun selected i =>
        let index := (randomness + i) % sources.length
        let v := sources.getD index 0
        if selected.contains v then selected else selected ++ [v])
      []

/-- `calculate_hai_score_with_sources` of amana-hai: with no sources it
falls back to `calculate_hai_score`; otherwise it adds a flat
`sources.len() as u16 * 50` bonus to the base score (plain `u16`
arithmetic, whose overflow would panic and abort) and caps at 10000. -/
def calculate_hai_score_with_sources (hai : Hai) (sources : List Nat) :
    Except HaiError Nat :=
  if sources.isEmpty then calculate_hai_score hai
  else
    match calculate_hai_score hai with
    | Except.error e => Except.error e
    | Except.ok base_score =>
      match checkedMul16 (sources.length % 2 ^ 16) 50 with
      | none => Except.error HaiError.MathOverflow
      | some source_modifier =>
        match checkedAdd16 base_score source_modifier with
        | none => Except.error HaiError.MathOverflow
        | some s => Except.ok (min s 10000)

/-- `update_hai_score_with_vrf` of amana-hai: derives a pseudo-random
value `(now as u64) % 100` from the clock, selects data sources with it
and stores the resulting score. -/
def update_hai_score_with_vrf (hai : Hai) (now : Int) (data_sources : List Nat) :
    Except HaiError Hai :=
  let pseudo_randomness := (now.emod (2 ^ 64)).toNat % 100
  let selected_sources :=
    select_data_sources_with_randomness data_sources pseudo_randomness
  match calculate_hai_score_with_sources hai selected_sources with
  | Except.error e => Except.error e
  | Except.ok new_score => Except.ok { hai with current_score := new_score }

/-- Reachable `Hai` states from `initialize` with `initial_score = s₀`
(a `u16`), under any sequence of the score-mutating operations
`track_activity`, `update_weights`, `update_hai_realtime` and
`update_hai_score_with_vrf`. -/
inductive HaiReachFrom (s₀ : Nat) : Hai → Prop where
  | init (hs : s₀ < 2 ^ 16) : HaiReachFrom s₀ (init_hai s₀)
  | track (h h' : Hai) (ic iab ev : Bool) (hr : HaiReachFrom s₀ h)
      (hok : track_activity h ic iab ev = Except.ok h') : HaiReachFrom s₀ h'
  | weights (h h' : Hai) (w1 w2 w3 w4 : Nat) (hr : HaiReachFrom s₀ h)
      (hok : update_weights h w1 w2 w3 w4 = Except.ok h') : HaiReachFrom s₀ h'
  | realtime (h h' : Hai) (d : Int) (hr : HaiReachFrom s₀ h)
      (hok : update_hai_realtime h d = Except.ok h') : HaiReachFrom s₀ h'
  | vrf (h h' : Hai) (now : Int) (ds : List Nat) (hr : HaiReachFrom s₀ h)
      (hok : update_hai_score_with_vrf h now ds = Except.ok h') : HaiReachFrom s₀ h'

/-! ## amana-actions: compliance gate -/

/-- `perform_compliance_check` of amana-actions, over the `Activity`
snapshot (`some verdict` = the function returns `Ok(verdict)`, `none` = a
panic aborts the transaction).  Rule 2 computes
`(outcome as u64 * 100) / capital_deployed` with plain (panicking)
arithmetic: a zero `capital_deployed` is a division-by-zero panic, and an
overflowing `outcome * 100` likewise aborts. -/
def perform_compliance_check (a : Activity) (now : Int) : Option Bool :=
  if a.outcome < 0 ∧ a.outcome.natAbs > a.capital_deployed then
    some false
  else if 0 < a.outcome then
    match checkedMul64 a.outcome.toNat 100 with
    | none => none
    | some m =>
      match checkedDiv64 m a.capital_deployed with
      | none => none
      | some profit_margin =>
        if 50 < profit_margin then some false
        else if now - a.created_at < 86400 then some false
        else some true
  else if now - a.created_at < 86400 then some false
  else some true

/-! ## amana-dao: data model -/

/-- `ProposalStatus` of amana-dao. -/
inductive ProposalStatus where
  | Pending
  | Active
  | Passed
  | Rejected
  | Executed
  | Canceled
deriving DecidableEq, Repr

/-- `VoteType` of amana-dao. -/
inductive VoteType where
  | For
  | Against
  | Abstain
deriving DecidableEq, Repr

/-- Errors of amana-dao (`DaoError`). -/
inductive DaoError where
  | MathOverflow
  | InvalidProposalStatus
  | VotingNotStarted
  | VotingEnded
  | VotingNotEnded
  | QuorumNotMet
  | ProposalFailed
  | ShariaNotApproved
  | NotShariaRelevant
  | Unauthorized
deriving DecidableEq, Repr

/-- The `Proposal` account of amana-dao (identities as `Nat`; `bump`
omitted). -/
structure Proposal where
  proposal_id : Nat
  proposer : Nat
  target_account : Nat
  amount : Nat
  affects_sharia : Bool
  status : ProposalStatus
  created_at : Int
  voting_starts_at : Int
  voting_ends_at : Int
  for_votes : Nat
  against_votes : Nat
  abstain_votes : Nat
  sharia_approved : Bool
deriving DecidableEq, Repr

/-! ## amana-dao: operations -/

/-- `vote` of amana-dao.  The `Vote` accounts context carries only the
dao, the proposal and the voter signer: NO per-voter record is created
or checked, so the handler is a pure function of the proposal, the
clock, the choice and the weight — the voter identity does not appear.
A `Pending` proposal whose start time has passed is auto-promoted to
`Active`; voting past `voting_ends_at` fails with `VotingEnded`; the
chosen tally is increased by `weight` with a checked addition. -/
def vote (p : Proposal) (now : Int) (v : VoteType) (weight : Nat) :
    Except DaoError Proposal :=
  if ¬ (p.status = ProposalStatus.Active ∨ p.status = ProposalStatus.Pending) then
    Except.error DaoError.InvalidProposalStatus
  else if p.status = ProposalStatus.Pending ∧ now < p.voting_starts_at then
    Except.error DaoError.VotingNotStarted
  else
    let p1 := if p.status = ProposalStatus.Pending then
        { p with status := ProposalStatus.Active }
      else p
    if p1.voting_ends_at < now then Except.error DaoError.VotingEnded
    else
      match v with
      | VoteType.For =>
        match checkedAdd64 p1.for_votes weight with
        | none => Except.error DaoError.MathOverflow
        | some t => Except.ok { p1 with for_votes := t }
      | VoteType.Against =>
        match checkedAdd64 p1.against_votes weight with
        | none => Except.error DaoError.MathOverflow
        | some t => Except.ok { p1 with against_votes := t }
      | VoteType.Abstain =>
        match checkedAdd64 p1.abstain_votes weight with
        | none => Except.error DaoError.MathOverflow
        | some t => Except.ok { p1 with abstain_votes := t }

/-- `k` successive calls of `vote` with the same choice and weight. -/
def iterate_vote : Nat → Proposal → Int → VoteType → Nat → Except DaoError Proposal
  | 0, p, _, _, _ => Except.ok p
  | Nat.succ k, p, now, v, w =>
    match vote p now v w with
    | Except.error e => Except.error e
    | Except.ok p' => iterate_vote k p' now v w

/-- `execute_proposal` of amana-dao: in order, requires status `Active`,
`now > voting_ends_at`, Sharia approval when `affects_sharia`, a nonzero
checked vote total, and `for_votes > against_votes`; on success the
status becomes `Executed`. -/
def execute_proposal (p : Proposal) (now : Int) : Except DaoError Proposal :=
  if p.status ≠ ProposalStatus.Active then
    Except.error DaoError.InvalidProposalStatus
  else if ¬ (p.voting_ends_at < now) then
    Except.error DaoError.VotingNotEnded
  else if p.affects_sharia ∧ ¬ p.sharia_approved then
    Except.error DaoError.ShariaNotApproved
  else
    match (checkedAdd64 p.for_votes p.against_votes).bind
        (fun v => checkedAdd64 v p.abstain_votes) with
    | none => Except.error DaoError.MathOverflow
    | some total_votes =>
      if total_votes = 0 then Except.error DaoError.QuorumNotMet
      else if ¬ (p.against_votes < p.for_votes) then
        Except.error DaoError.ProposalFailed
      else Except.ok { p with status := ProposalStatus.Executed }

/-! ## Theorems for the claims -/

/-- C1: for every activity in status `Approved`, `complete_activity`
settles capital back into the reserve exactly as claimed — profit adds
`capital_deployed + outcome`, a loss smaller than the deployed capital
adds `capital_deployed - loss`, a loss of at least the deployed capital
leaves the reserve unchanged, a zero outcome adds `capital_deployed` —
and in every case the activity becomes `Completed` and validated with
the outcome and completion timestamp recorded.  The overflow hypothesis
keeps the checked `u64` additions inside their range. -/
theorem complete_activity_settlement (r : Reserve) (a : Activity) (outcome now : Int)
    (hst : a.status = ActivityStatus.Approved)
    (hov : r.total_capital + a.capital_deployed + outcome.toNat < 2 ^ 64) :
    ∃ r' a', complete_activity r a outcome now = Except.ok (r', a') ∧
      a'.status = ActivityStatus.Completed ∧ a'.is_validated = true ∧
      a'.outcome = outcome ∧ a'.completed_at = now ∧
      r'.total_capital =
        (if 0 < outcome then r.total_capital + a.capital_deployed + outcome.toNat
         else if outcome < 0 then
           (if outcome.natAbs < a.capital_deployed then
              r.total_capital + a.capital_deployed - outcome.natAbs
            else r.total_capital)
         else r.total_capital + a.capital_deployed) := by
  have h1 : r.total_capital + a.capital_deployed < 2 ^ 64 := by omega
  rw [complete_activity]
  rw [if_neg (by simp [hst])]
  by_cases hpos : 0 < outcome
  · rw [if_pos hpos]
    simp only [checkedAdd64, if_pos h1, Option.some_bind, if_pos hov]
    exact ⟨_, _, rfl, rfl, rfl, rfl, rfl, by rw [if_pos hpos]⟩
  · rw [if_neg hpos]
    by_cases hneg : outcome < 0
    · rw [if_pos hneg]
      by_cases hloss : outcome.natAbs < a.capital_deployed
      · rw [if_pos hloss]
        have h2 : outcome.natAbs ≤ r.total_capital + a.capital_deployed := by omega
        simp only [checkedAdd64, if_pos h1, Option.some_bind, checkedSub64,
          if_pos h2]
        exact ⟨_, _, rfl, rfl, rfl, rfl, rfl,
          by rw [if_neg hpos, if_pos hneg, if_pos hloss]⟩
      · rw [if_neg hloss]
        exact ⟨_, _, rfl, rfl, rfl, rfl, rfl,
          by rw [if_neg hpos, if_pos hneg, if_neg hloss]⟩
    · rw [if_neg hneg]
      simp only [checkedAdd64, if_pos h1]
      exact ⟨_, _, rfl, rfl, rfl, rfl, rfl, by rw [if_neg hpos, if_neg hneg]⟩

/-- C1 witness: the spec's own scenario — reserve at 400 after deploying
600, completed with outcome 120, ends at 400 + 600 + 120 = 1120. -/
theorem complete_activity_settlement_witness :
    ∃ r' a', complete_activity ⟨500, 10, 400, 1⟩
        ⟨7, 3, 600, 600, ActivityStatus.Approved, 0, 0, 0, false⟩ 120 172800 =
      Except.ok (r', a') ∧
      a'.status = ActivityStatus.Completed ∧ a'.is_validated = true ∧
      a'.outcome = 120 ∧ a'.completed_at = 172800 ∧
      r'.total_capital =
        (if (0 : Int) < 120 then 400 + 600 + (120 : Int).toNat
         else if (120 : Int) < 0 then
           (if (120 : Int).natAbs < 600 then 400 + 600 - (120 : Int).natAbs
            else 400)
         else 400 + 600) :=
  complete_activity_settlement ⟨500, 10, 400, 1⟩
    ⟨7, 3, 600, 600, ActivityStatus.Approved, 0, 0, 0, false⟩ 120 172800
    rfl (by decide)

/-- C9: `perform_compliance_check` divides by `capital_deployed` with no
zero guard: every activity snapshot with a positive outcome and zero
deployed capital panics (modelled as `none`) instead of returning a
verdict. -/
theorem compliance_check_zero_deployed_panics (a : Activity) (now : Int)
    (hpos : 0 < a.outcome) (hz : a.capital_deployed = 0) :
    perform_compliance_check a now = none := by
  rw [perform_compliance_check, if_neg (by omega), if_pos hpos]
  cases hmul : checkedMul64 a.outcome.toNat 100 with
  | none => rfl
  | some m => simp [checkedDiv64, hz]

/-- C9 witness: a concrete snapshot with outcome 10 and zero deployed
capital panics. -/
theorem compliance_check_zero_deployed_panics_witness :
    perform_compliance_check ⟨1, 1, 500, 0, ActivityStatus.Completed, 0, 0, 10, true⟩
      0 = none :=
  compliance_check_zero_deployed_panics
    ⟨1, 1, 500, 0, ActivityStatus.Completed, 0, 0, 10, true⟩ 0 (by decide) rfl

/-- C4 counterexample: an activity with `capital_required = 1000`,
`capital_deployed = 100` and outcome 60.  Its profit margin over
`capital_required` is 6% ≤ 50%, and no other rule applies (positive
outcome, duration well above one day), so the claim says the check
passes — yet the code flags it, because it computes the margin over
`capital_deployed`: 60*100/100 = 60 > 50. -/
theorem compliance_margin_counterexample :
    perform_compliance_check
        ⟨1, 1, 1000, 100, ActivityStatus.Completed, 0, 0, 60, true⟩ 200000 =
      some false ∧
    60 * 100 / 1000 ≤ 50 ∧
    (200000 : Int) - 0 ≥ 86400 := by decide

/-- C4 amended: the profit-margin rule computes
`(outcome * 100) / capital_deployed` — over `capital_deployed`, not
`capital_required` as claimed.  For a positive outcome (with a nonzero
divisor and a non-overflowing product) the check flags the activity when
that margin exceeds 50, and otherwise the verdict is decided by the
remaining duration rule alone. -/
theorem compliance_margin_over_deployed (a : Activity) (now : Int)
    (hpos : 0 < a.outcome) (hnz : a.capital_deployed ≠ 0)
    (hmul : a.outcome.toNat * 100 < 2 ^ 64) :
    perform_compliance_check a now =
      (if 50 < a.outcome.toNat * 100 / a.capital_deployed then some false
       else if now - a.created_at < 86400 then some false
       else some true) := by
  rw [perform_compliance_check, if_neg (by omega), if_pos hpos]
  simp only [checkedMul64, if_pos hmul, checkedDiv64, if_neg hnz]

/-- C4 witness: margin over deployed capital 30*100/200 = 15 ≤ 50 and a
duration of three days verify the activity. -/
theorem compliance_margin_over_deployed_witness :
    perform_compliance_check
        ⟨2, 1, 900, 200, ActivityStatus.Completed, 0, 0, 30, true⟩ 259200 =
      some true := by
  rw [compliance_margin_over_deployed
    ⟨2, 1, 900, 200, ActivityStatus.Completed, 0, 0, 30, true⟩ 259200
    (by decide) (by decide) (by decide)]
  decide

/-- C3 counterexample: `deploy_capital_realtime` performs no status
check, so it moves a `Completed` activity back to `Active`, contradicting
the claim that no operation moves a `Completed` activity to any other
status. -/
theorem deploy_realtime_moves_completed :
    deploy_capital_realtime ⟨500, 10, 100, 1⟩
        ⟨1, 1, 60, 60, ActivityStatus.Completed, 0, 5, 10, true⟩ 50 =
      Except.ok (⟨500, 10, 50, 1⟩,
        ⟨1, 1, 60, 50, ActivityStatus.Active, 0, 5, 10, true⟩) ∧
    ActivityStatus.Completed ≠ ActivityStatus.Active :=
  ⟨rfl, by decide⟩

/-- C3 amended: `propose_activity`, `approve_activity` and
`complete_activity` do move statuses only forward (Proposed, then
Proposed→Approved, then Approved→Completed — the `Active` state is
bypassed on this path), but `deploy_capital_realtime` checks only
`amount ≤ total_capital` and sets ANY activity — in particular a
`Completed` or `Rejected` one — to `Active`. -/
theorem activity_status_transitions :
    (∀ (r : Reserve) (id ini cap : Nat) (now : Int) (a' : Activity),
        propose_activity r id ini cap now = Except.ok a' →
        a'.status = ActivityStatus.Proposed) ∧
    (∀ (r : Reserve) (a : Activity) (r' : Reserve) (a' : Activity),
        approve_activity r a = Except.ok (r', a') →
        a.status = ActivityStatus.Proposed ∧
        a'.status = ActivityStatus.Approved) ∧
    (∀ (r : Reserve) (a : Activity) (o now : Int) (r' : Reserve) (a' : Activity),
        complete_activity r a o now = Except.ok (r', a') →
        a.status = ActivityStatus.Approved ∧
        a'.status = ActivityStatus.Completed) ∧
    (∀ (r : Reserve) (a : Activity) (amount : Nat),
        amount ≤ r.total_capital →
        ∃ r' a', deploy_capital_realtime r a amount = Except.ok (r', a') ∧
          a'.status = ActivityStatus.Active) := by
  refine ⟨?_, ?_, ?_, ?_⟩
  · intro r id ini cap now a' h
    rw [propose_activity] at h
    split at h
    · cases h
      rfl
    · cases h
  · intro r a r' a' h
    rw [approve_activity] at h
    split at h
    · cases h
    · rename_i hns
      split at h
      · cases h
      · cases h
        exact ⟨by simpa using hns, rfl⟩
  · intro r a o now r' a' h
    simp only [complete_activity] at h
    split at h
    · cases h
    · rename_i hns
      refine ⟨by simpa using hns, ?_⟩
      split at h
      · split at h
        · cases h
        · cases h
          rfl
      · split at h
        · split at h
          · split at h
            · cases h
            · cases h
              rfl
          · cases h
            rfl
        · split at h
          · cases h
          · cases h
            rfl
  · intro r a amount hle
    exact ⟨_, _, by rw [deploy_capital_realtime, if_pos hle], rfl⟩

/-- C3 amended witness: a `Rejected` activity is deployed to `Active` in
a reserve holding 9 units. -/
theorem activity_status_transitions_witness :
    ∃ r' a', deploy_capital_realtime ⟨0, 0, 9, 0⟩
        ⟨2, 2, 4, 4, ActivityStatus.Rejected, 0, 0, 0, false⟩ 3 =
      Except.ok (r', a') ∧ a'.status = ActivityStatus.Active :=
  activity_status_transitions.2.2.2 ⟨0, 0, 9, 0⟩
    ⟨2, 2, 4, 4, ActivityStatus.Rejected, 0, 0, 0, false⟩ 3 (by decide)

/-- A successful counter-based recomputation yields a clamped score,
except on the `total_activities = 0` passthrough, which returns the
stored score unchanged. -/
theorem calculate_hai_score_ok_le (hai : Hai) (v : Nat)
    (hok : calculate_hai_score hai = Except.ok v) :
    v ≤ 10000 ∨ (hai.total_activities = 0 ∧ v = hai.current_score) := by
  simp only [calculate_hai_score] at hok
  split at hok
  · rename_i h0
    cases hok
    exact Or.inr ⟨h0, rfl⟩
  · split at hok
    · cases hok
    · split at hok
      · cases hok
      · split at hok
        · cases hok
        · split at hok
          · cases hok
          · cases hok
            exact Or.inl (min_le_right _ _)

/-- The source-sampling variant likewise only ever returns a clamped
score or the untouched stored score. -/
theorem calc_with_sources_ok_le (hai : Hai) (ss : List Nat) (v : Nat)
    (hok : calculate_hai_score_with_sources hai ss = Except.ok v) :
    v ≤ 10000 ∨ (hai.total_activities = 0 ∧ v = hai.current_score) := by
  simp only [calculate_hai_score_with_sources] at hok
  split at hok
  · exact calculate_hai_score_ok_le hai v hok
  · split at hok
    · cases hok
    · split at hok
      · cases hok
      · split at hok
        · cases hok
        · cases hok
          exact Or.inl (min_le_right _ _)

/-- `track_activity` always leaves the score within the clamp: the
recomputation runs with `total_activities ≥ 1`, so the passthrough is
unreachable. -/
theorem track_activity_ok_le (hai h' : Hai) (ic iab ev : Bool)
    (hok : track_activity hai ic iab ev = Except.ok h') :
    h'.current_score ≤ 10000 := by
  simp only [track_activity] at hok
  split at hok
  · cases hok
  · rename_i t ht
    split at hok
    · cases hok
    · split at hok
      · cases hok
      · split at hok
        · cases hok
        · split at hok
          · cases hok
          · rename_i s hs
            cases hok
            rcases calculate_hai_score_ok_le _ _ hs with h1 | h1
            · exact h1
            · rw [checkedAdd64] at ht
              split at ht
              · cases ht
                exact absurd h1.1 (by simp)
              · cases ht

/-- `update_weights` either clamps the new score or (on the
`total_activities = 0` passthrough) keeps the old one. -/
theorem update_weights_ok_le (hai h' : Hai) (w1 w2 w3 w4 : Nat)
    (hok : update_weights hai w1 w2 w3 w4 = Except.ok h') :
    h'.current_score ≤ 10000 ∨ h'.current_score = hai.current_score := by
  simp only [update_weights] at hok
  split at hok
  · cases hok
  · split at hok
    · cases hok
    · rename_i s hs
      cases hok
      rcases calculate_hai_score_ok_le _ _ hs with h1 | h1
      · exact Or.inl h1
      · exact Or.inr h1.2

/-- `update_hai_realtime` caps its result at 10000. -/
theorem update_hai_realtime_ok_le (hai h' : Hai) (d : Int)
    (hok : update_hai_realtime hai d = Except.ok h') :
    h'.current_score ≤ 10000 := by
  simp only [update_hai_realtime] at hok
  cases hok
  exact min_le_right _ _

/-- `update_hai_score_with_vrf` either clamps or propagates the stored
score through the empty-sources / zero-activities passthrough. -/
theorem update_vrf_ok_le (hai h' : Hai) (now : Int) (ds : List Nat)
    (hok : update_hai_score_with_vrf hai now ds = Except.ok h') :
    h'.current_score ≤ 10000 ∨ h'.current_score = hai.current_score := by
  simp only [update_hai_score_with_vrf] at hok
  split at hok
  · cases hok
  · rename_i s hs
    cases hok
    rcases calc_with_sources_ok_le _ _ _ hs with h1 | h1
    · exact Or.inl h1
    · exact Or.inr h1.2

/-- C2 counterexample: `initialize` stores `initial_score` without any
clamp, so with `initial_score = 10001` the very first reachable state
already violates `current_score ≤ 10000`. -/
theorem hai_initial_score_unbounded :
    HaiReachFrom 10001 (init_hai 10001) ∧
    10000 < (init_hai 10001).current_score :=
  ⟨HaiReachFrom.init (by norm_num), by decide⟩

/-- C2 amended: provided `initialize` is called with
`initial_score ≤ 10000`, every state reachable under `track_activity`,
`update_weights`, `update_hai_realtime` and `update_hai_score_with_vrf`
satisfies `current_score ≤ 10000` (the lower bound holds trivially on
`Nat`).  Without that proviso the bound fails, because `initialize`
never clamps. -/
theorem hai_score_bounded (s₀ : Nat) (h : Hai) (hs : s₀ ≤ 10000)
    (hr : HaiReachFrom s₀ h) : h.current_score ≤ 10000 := by
  induction hr with
  | init hs16 => simpa [init_hai] using hs
  | track g g' ic iab ev hg hok ih => exact track_activity_ok_le g g' ic iab ev hok
  | weights g g' w1 w2 w3 w4 hg hok ih =>
      rcases update_weights_ok_le g g' w1 w2 w3 w4 hok with hle | heq
      · exact hle
      · rw [heq]; exact ih
  | realtime g g' d hg hok ih => exact update_hai_realtime_ok_le g g' d hok
  | vrf g g' now ds hg hok ih =>
      rcases update_vrf_ok_le g g' now ds hok with hle | heq
      · exact hle
      · rw [heq]; exact ih

/-- C2 amended witness: the freshly initialized state with score 0 is
reachable and within bounds. -/
theorem hai_score_bounded_witness : (init_hai 0).current_score ≤ 10000 :=
  hai_score_bounded 0 (init_hai 0) (by norm_num)
    (HaiReachFrom.init (by norm_num))

/-- `unwrap_or(0)` on a checked `u64` multiplication. -/
theorem checkedMul64_getD (x y : Nat) :
    (checkedMul64 x y).getD 0 = if x * y < 2 ^ 64 then x * y else 0 := by
  rw [checkedMul64]
  split <;> rfl

/-- A value below `2 ^ 64`, divided by 10000, is at most
`2 ^ 64 / 10000`. -/
theorem unwrap_term_le (x : Nat) :
    (if x < 2 ^ 64 then x else 0) / 10000 ≤ 1844674407370955 := by
  split
  · rename_i hx
    calc (x : Nat) / 10000 ≤ 2 ^ 64 / 10000 := Nat.div_le_div_right (le_of_lt hx)
    _ = 1844674407370955 := by norm_num
  · simp

/-- The weighted-sum chain of `calculate_hai_score`, evaluated: the
compliance term is checked, the other three terms collapse an
overflowing multiplication to 0 via `unwrap_or(0)`, and the checked
additions cannot overflow because every summand is at most
`2 ^ 64 / 10000`. -/
theorem weighted_chain_eq (cs asb evs w1 w2 w3 w4 : Nat)
    (hcw : cs * w1 < 2 ^ 64) :
    ((((checkedMul64 cs w1).bind (fun v => checkedDiv64 v 10000)).bind
        (fun v => checkedAdd64 v ((checkedMul64 asb w2).getD 0 / 10000))).bind
        (fun v => checkedAdd64 v ((checkedMul64 evs w3).getD 0 / 10000))).bind
        (fun v => checkedAdd64 v ((checkedMul64 8000 w4).getD 0 / 10000))
      = some (cs * w1 / 10000
          + (if asb * w2 < 2 ^ 64 then asb * w2 else 0) / 10000
          + (if evs * w3 < 2 ^ 64 then evs * w3 else 0) / 10000
          + (if 8000 * w4 < 2 ^ 64 then 8000 * w4 else 0) / 10000) := by
  have h1 : cs * w1 / 10000 ≤ 1844674407370955 := by
    have h := unwrap_term_le (cs * w1)
    rwa [if_pos hcw] at h
  have h2 := unwrap_term_le (asb * w2)
  have h3 := unwrap_term_le (evs * w3)
  have h4 := unwrap_term_le (8000 * w4)
  have ha1 : cs * w1 / 10000
      + (if asb * w2 < 2 ^ 64 then asb * w2 else 0) / 10000 < 2 ^ 64 :=
    lt_of_le_of_lt (add_le_add h1 h2) (by norm_num)
  have ha2 : cs * w1 / 10000
      + (if asb * w2 < 2 ^ 64 then asb * w2 else 0) / 10000
      + (if evs * w3 < 2 ^ 64 then evs * w3 else 0) / 10000 < 2 ^ 64 :=
    lt_of_le_of_lt (add_le_add (add_le_add h1 h2) h3) (by norm_num)
  have ha3 : cs * w1 / 10000
      + (if asb * w2 < 2 ^ 64 then asb * w2 else 0) / 10000
      + (if evs * w3 < 2 ^ 64 then evs * w3 else 0) / 10000
      + (if 8000 * w4 < 2 ^ 64 then 8000 * w4 else 0) / 10000 < 2 ^ 64 :=
    lt_of_le_of_lt (add_le_add (add_le_add (add_le_add h1 h2) h3) h4)
      (by norm_num)
  simp only [checkedMul64_getD]
  rw [checkedMul64, if_pos hcw]
  simp only [Option.some_bind]
  rw [checkedDiv64, if_neg (by norm_num : ¬((10000 : Nat) = 0))]
  simp only [Option.some_bind]
  rw [checkedAdd64, if_pos ha1]
  simp only [Option.some_bind]
  rw [checkedAdd64, if_pos ha2]
  simp only [Option.some_bind]
  rw [checkedAdd64, if_pos ha3]

/-- Full characterization of `calculate_hai_score` when the component
multiplications and the compliance weighted term stay in `u64` range:
the result is the clamped sum in which each of the asset-backing,
economic-value and validator terms contributes 0 whenever its
multiplication overflows (the `unwrap_or(0)` semantics), rather than
aborting. -/
theorem calculate_hai_score_char (hai : Hai)
    (htot : ¬ hai.total_activities = 0)
    (hcm : hai.compliant_activities * 10000 < 2 ^ 64)
    (ham : hai.asset_backed_activities * 10000 < 2 ^ 64)
    (hem : hai.economic_value_activities * 10000 < 2 ^ 64)
    (hcw : hai.compliant_activities * 10000 / hai.total_activities
        * hai.compliance_weight < 2 ^ 64) :
    calculate_hai_score hai = Except.ok (min
      (hai.compliant_activities * 10000 / hai.total_activities
          * hai.compliance_weight / 10000
        + (if hai.asset_backed_activities * 10000 / hai.total_activities
              * hai.asset_backing_weight < 2 ^ 64
           then hai.asset_backed_activities * 10000 / hai.total_activities
              * hai.asset_backing_weight
           else 0) / 10000
        + (if hai.economic_value_activities * 10000 / hai.total_activities
              * hai.economic_value_weight < 2 ^ 64
           then hai.economic_value_activities * 10000 / hai.total_activities
              * hai.economic_value_weight
           else 0) / 10000
        + (if 8000 * hai.validator_participation_weight < 2 ^ 64
           then 8000 * hai.validator_participation_weight
           else 0) / 10000) 10000) := by
  have e1 : (checkedMul64 hai.compliant_activities 10000).bind
      (fun v => checkedDiv64 v hai.total_activities)
      = some (hai.compliant_activities * 10000 / hai.total_activities) := by
    rw [checkedMul64, if_pos hcm]
    simp only [Option.some_bind]
    rw [checkedDiv64, if_neg htot]
  have e2 : (checkedMul64 hai.asset_backed_activities 10000).bind
      (fun v => checkedDiv64 v hai.total_activities)
      = some (hai.asset_backed_activities * 10000 / hai.total_activities) := by
    rw [checkedMul64, if_pos ham]
    simp only [Option.some_bind]
    rw [checkedDiv64, if_neg htot]
  have e3 : (checkedMul64 hai.economic_value_activities 10000).bind
      (fun v => checkedDiv64 v hai.total_activities)
      = some (hai.economic_value_activities * 10000 / hai.total_activities) := by
    rw [checkedMul64, if_pos hem]
    simp only [Option.some_bind]
    rw [checkedDiv64, if_neg htot]
  rw [calculate_hai_score, if_neg htot]
  simp only [e1, e2, e3, weighted_chain_eq _ _ _ _ _ _ _ hcw]

/-- C6 counterexample: a state with one tracked activity and
`asset_backed_activities = 10^15` (so the asset component is `10^19`)
and `asset_backing_weight = 100`.  The weighted multiplication
`10^19 * 100` overflows `u64`, yet `calculate_hai_score` returns
`Ok 0` — the overflow is silently replaced by 0 via `unwrap_or(0)` —
while the all-checked computation the spec describes
(`calculate_hai_score_spec`) aborts with `MathOverflow`. -/
theorem calculate_hai_score_unwrap_counterexample :
    calculate_hai_score ⟨0, 1, 0, 10 ^ 15, 0, 0, 0, 100, 0, 0⟩ =
      Except.ok 0 ∧
    calculate_hai_score_spec ⟨0, 1, 0, 10 ^ 15, 0, 0, 0, 100, 0, 0⟩ =
      Except.error HaiError.MathOverflow :=
  ⟨rfl, rfl⟩

/-- C6 amended: in `calculate_hai_score` the three per-activity
components and the compliance weighted term are checked and abort with
`MathOverflow` on overflow, but the asset-backing, economic-value and
validator weighted terms silently replace an overflowing multiplication
with 0 (`unwrap_or(0)`) and divide unchecked by 10000; only the final
result is clamped to 10000. -/
theorem calculate_hai_score_unwrap_semantics (hai : Hai)
    (htot : ¬ hai.total_activities = 0)
    (hcm : hai.compliant_activities * 10000 < 2 ^ 64)
    (ham : hai.asset_backed_activities * 10000 < 2 ^ 64)
    (hem : hai.economic_value_activities * 10000 < 2 ^ 64)
    (hcw : hai.compliant_activities * 10000 / hai.total_activities
        * hai.compliance_weight < 2 ^ 64) :
    calculate_hai_score hai = Except.ok (min
      (hai.compliant_activities * 10000 / hai.total_activities
          * hai.compliance_weight / 10000
        + (if hai.asset_backed_activities * 10000 / hai.total_activities
              * hai.asset_backing_weight < 2 ^ 64
           then hai.asset_backed_activities * 10000 / hai.total_activities
              * hai.asset_backing_weight
           else 0) / 10000
        + (if hai.economic_value_activities * 10000 / hai.total_activities
              * hai.economic_value_weight < 2 ^ 64
           then hai.economic_value_activities * 10000 / hai.total_activities
              * hai.economic_value_weight
           else 0) / 10000
        + (if 8000 * hai.validator_participation_weight < 2 ^ 64
           then 8000 * hai.validator_participation_weight
           else 0) / 10000) 10000) :=
  calculate_hai_score_char hai htot hcm ham hem hcw

/-- C6 amended witness: with asset count `10^15` and asset weight 7 the
asset term overflows and contributes 0, and the whole score evaluates to
`Ok 0` instead of aborting. -/
theorem calculate_hai_score_unwrap_semantics_witness :
    calculate_hai_score ⟨0, 1, 1, 10 ^ 15, 0, 0, 0, 7, 0, 0⟩ =
      Except.ok 0 := by
  rw [calculate_hai_score_unwrap_semantics ⟨0, 1, 1, 10 ^ 15, 0, 0, 0, 7, 0, 0⟩
    (by norm_num) (by norm_num) (by norm_num) (by norm_num) (by norm_num)]
  rfl

/-- C5 counterexample: with `total_activities = 1` and
`compliant_activities = 2^60`, the component multiplication
`2^60 * 10000` overflows `u64`, so `update_weights` fails with
`MathOverflow` even though the four weights sum to exactly 10000 —
refuting `succeeds exactly when the sum is 10000`. -/
theorem update_weights_valid_sum_overflow :
    update_weights ⟨0, 1, 2 ^ 60, 0, 0, 0, 0, 0, 0, 0⟩ 4000 2500 2000 1500 =
      Except.error HaiError.MathOverflow ∧
    4000 + 2500 + 2000 + 1500 = 10000 :=
  ⟨rfl, rfl⟩

/-- C5 amended: `update_weights` returns `InvalidWeights` (mutating
nothing — the guard precedes every write and an Anchor error aborts the
transaction) exactly when the weight sum differs from 10000; when the
sum is 10000 it stores the four weights and recomputes the score,
succeeding whenever the recomputation stays in `u64` range — in
particular whenever each counter is at most `total_activities` and
`total_activities * 10000` fits in `u64`.  (With counters large enough
to overflow the recomputation it instead fails with `MathOverflow`, the
correction the counterexample forces.) -/
theorem update_weights_exact (hai : Hai) (w1 w2 w3 w4 : Nat)
    (hw1 : w1 < 2 ^ 16) (hw2 : w2 < 2 ^ 16) (hw3 : w3 < 2 ^ 16)
    (hw4 : w4 < 2 ^ 16) :
    (w1 + w2 + w3 + w4 ≠ 10000 →
      update_weights hai w1 w2 w3 w4 = Except.error HaiError.InvalidWeights) ∧
    (w1 + w2 + w3 + w4 = 10000 →
      hai.compliant_activities ≤ hai.total_activities →
      hai.asset_backed_activities ≤ hai.total_activities →
      hai.economic_value_activities ≤ hai.total_activities →
      hai.total_activities * 10000 < 2 ^ 64 →
      ∃ hai', update_weights hai w1 w2 w3 w4 = Except.ok hai' ∧
        hai'.compliance_weight = w1 ∧ hai'.asset_backing_weight = w2 ∧
        hai'.economic_value_weight = w3 ∧
        hai'.validator_participation_weight = w4 ∧
        hai'.total_activities = hai.total_activities ∧
        hai'.compliant_activities = hai.compliant_activities ∧
        hai'.asset_backed_activities = hai.asset_backed_activities ∧
        hai'.economic_value_activities = hai.economic_value_activities) := by
  constructor
  · intro hne
    simp only [update_weights]
    rw [if_pos hne]
  · intro heq hc ha he ht
    have hsum : ∃ s, calculate_hai_score
        { hai with compliance_weight := w1
                   asset_backing_weight := w2
                   economic_value_weight := w3
                   validator_participation_weight := w4 } = Except.ok s := by
      by_cases h0 : hai.total_activities = 0
      · exact ⟨_, by rw [calculate_hai_score, if_pos h0]⟩
      · have hcm : hai.compliant_activities * 10000 < 2 ^ 64 :=
          lt_of_le_of_lt (Nat.mul_le_mul_right _ hc) ht
        have ham : hai.asset_backed_activities * 10000 < 2 ^ 64 :=
          lt_of_le_of_lt (Nat.mul_le_mul_right _ ha) ht
        have hem : hai.economic_value_activities * 10000 < 2 ^ 64 :=
          lt_of_le_of_lt (Nat.mul_le_mul_right _ he) ht
        have hcs : hai.compliant_activities * 10000 / hai.total_activities
            ≤ 10000 := by
          have h1 : hai.compliant_activities * 10000
              ≤ hai.total_activities * 10000 := Nat.mul_le_mul_right _ hc
          have h2 := Nat.div_le_div_right (c := hai.total_activities) h1
          rwa [Nat.mul_comm hai.total_activities 10000,
            Nat.mul_div_cancel _ (Nat.pos_of_ne_zero h0)] at h2
        have hcw : hai.compliant_activities * 10000 / hai.total_activities
            * w1 < 2 ^ 64 :=
          lt_of_le_of_lt (Nat.mul_le_mul hcs (le_of_lt hw1)) (by norm_num)
        exact ⟨_, calculate_hai_score_char _ h0 hcm ham hem hcw⟩
    obtain ⟨s, hs⟩ := hsum
    refine ⟨{ hai with compliance_weight := w1
                       asset_backing_weight := w2
                       economic_value_weight := w3
                       validator_participation_weight := w4
                       current_score := s },
      ?_, rfl, rfl, rfl, rfl, rfl, rfl, rfl, rfl⟩
    simp only [update_weights]
    rw [if_neg (by simp [heq]), hs]

/-- C5 amended witness: a valid weight set is stored on a small state,
and an invalid sum is rejected. -/
theorem update_weights_exact_witness :
    (4000 + 2500 + 2000 + 1501 ≠ 10000 →
      update_weights ⟨5000, 2, 1, 1, 0, 0, 0, 0, 0, 0⟩ 4000 2500 2000 1501 =
        Except.error HaiError.InvalidWeights) ∧
    (4000 + 2500 + 2000 + 1501 = 10000 → 1 ≤ 2 → 1 ≤ 2 → 0 ≤ 2 →
      2 * 10000 < 2 ^ 64 →
      ∃ hai', update_weights ⟨5000, 2, 1, 1, 0, 0, 0, 0, 0, 0⟩
          4000 2500 2000 1501 = Except.ok hai' ∧
        hai'.compliance_weight = 4000 ∧ hai'.asset_backing_weight = 2500 ∧
        hai'.economic_value_weight = 2000 ∧
        hai'.validator_participation_weight = 1501 ∧
        hai'.total_activities = 2 ∧ hai'.compliant_activities = 1 ∧
        hai'.asset_backed_activities = 1 ∧
        hai'.economic_value_activities = 0) :=
  update_weights_exact ⟨5000, 2, 1, 1, 0, 0, 0, 0, 0, 0⟩ 4000 2500 2000 1501
    (by norm_num) (by norm_num) (by norm_num) (by norm_num)

/-- With all four weights zero, the recomputation yields 0 whenever it
runs on a nonzero activity count: every weighted term is multiplied by
its zero weight. -/
theorem calculate_hai_score_zero_weights (hai : Hai)
    (htot : ¬ hai.total_activities = 0)
    (hcm : hai.compliant_activities * 10000 < 2 ^ 64)
    (ham : hai.asset_backed_activities * 10000 < 2 ^ 64)
    (hem : hai.economic_value_activities * 10000 < 2 ^ 64)
    (hw1 : hai.compliance_weight = 0) (hw2 : hai.asset_backing_weight = 0)
    (hw3 : hai.economic_value_weight = 0)
    (hw4 : hai.validator_participation_weight = 0) :
    calculate_hai_score hai = Except.ok 0 := by
  have hcw : hai.compliant_activities * 10000 / hai.total_activities
      * hai.compliance_weight < 2 ^ 64 := by simp [hw1]
  rw [calculate_hai_score_char hai htot hcm ham hem hcw, hw1, hw2, hw3, hw4]
  norm_num

/-- `track_activity`, expressed through the values of its four counter
increments and of the subsequent recomputation. -/
theorem track_activity_eq (hai : Hai) (ic iab ev : Bool) (t c a e s : Nat)
    (ht : checkedAdd64 hai.total_activities 1 = some t)
    (hc : (if ic then checkedAdd64 hai.compliant_activities 1
           else some hai.compliant_activities) = some c)
    (ha : (if iab then checkedAdd64 hai.asset_backed_activities 1
           else some hai.asset_backed_activities) = some a)
    (he : (if ev then checkedAdd64 hai.economic_value_activities 1
           else some hai.economic_value_activities) = some e)
    (hs : calculate_hai_score
        { hai with total_activities := t
                   compliant_activities := c
                   asset_backed_activities := a
                   economic_value_activities := e } = Except.ok s) :
    track_activity hai ic iab ev = Except.ok
      { hai with total_activities := t
                 compliant_activities := c
                 asset_backed_activities := a
                 economic_value_activities := e
                 current_score := s } := by
  simp only [track_activity, ht, hc, ha, he, hs]

/-- C8: after `initialize` of the HAI state all four basis-point weights
are zero (they are never assigned), the weight-sum invariant fails in
the initial state, and the first `track_activity` recomputation yields
`current_score = 0` regardless of the `initial_score` passed, for every
combination of tracked flags. -/
theorem init_hai_weights_zero_first_track (s : Nat) (hs : s < 2 ^ 16)
    (ic iab ev : Bool) :
    (init_hai s).compliance_weight = 0 ∧
    (init_hai s).asset_backing_weight = 0 ∧
    (init_hai s).economic_value_weight = 0 ∧
    (init_hai s).validator_participation_weight = 0 ∧
    (init_hai s).compliance_weight + (init_hai s).asset_backing_weight
      + (init_hai s).economic_value_weight
      + (init_hai s).validator_participation_weight ≠ 10000 ∧
    ∃ hai', track_activity (init_hai s) ic iab ev = Except.ok hai' ∧
      hai'.current_score = 0 := by
  refine ⟨rfl, rfl, rfl, rfl, by simp [init_hai], ?_⟩
  cases ic <;> cases iab <;> cases ev
  · exact ⟨⟨0, 1, 0, 0, 0, 0, 0, 0, 0, 0⟩,
      track_activity_eq (init_hai s) false false false 1 0 0 0 0
        rfl rfl rfl rfl
        (calculate_hai_score_zero_weights _ (by norm_num) (by norm_num)
          (by norm_num) (by norm_num) rfl rfl rfl rfl), rfl⟩
  · exact ⟨⟨0, 1, 0, 0, 1, 0, 0, 0, 0, 0⟩,
      track_activity_eq (init_hai s) false false true 1 0 0 1 0
        rfl rfl rfl rfl
        (calculate_hai_score_zero_weights _ (by norm_num) (by norm_num)
          (by norm_num) (by norm_num) rfl rfl rfl rfl), rfl⟩
  · exact ⟨⟨0, 1, 0, 1, 0, 0, 0, 0, 0, 0⟩,
      track_activity_eq (init_hai s) false true false 1 0 1 0 0
        rfl rfl rfl rfl
        (calculate_hai_score_zero_weights _ (by norm_num) (by norm_num)
          (by norm_num) (by norm_num) rfl rfl rfl rfl), rfl⟩
  · exact ⟨⟨0, 1, 0, 1, 1, 0, 0, 0, 0, 0⟩,
      track_activity_eq (init_hai s) false true true 1 0 1 1 0
        rfl rfl rfl rfl
        (calculate_hai_score_zero_weights _ (by norm_num) (by norm_num)
          (by norm_num) (by norm_num) rfl rfl rfl rfl), rfl⟩
  · exact ⟨⟨0, 1, 1, 0, 0, 0, 0, 0, 0, 0⟩,
      track_activity_eq (init_hai s) true false false 1 1 0 0 0
        rfl rfl rfl rfl
        (calculate_hai_score_zero_weights _ (by norm_num) (by norm_num)
          (by norm_num) (by norm_num) rfl rfl rfl rfl), rfl⟩
  · exact ⟨⟨0, 1, 1, 0, 1, 0, 0, 0, 0, 0⟩,
      track_activity_eq (init_hai s) true false true 1 1 0 1 0
        rfl rfl rfl rfl
        (calculate_hai_score_zero_weights _ (by norm_num) (by norm_num)
          (by norm_num) (by norm_num) rfl rfl rfl rfl), rfl⟩
  · exact ⟨⟨0, 1, 1, 1, 0, 0, 0, 0, 0, 0⟩,
      track_activity_eq (init_hai s) true true false 1 1 1 0 0
        rfl rfl rfl rfl
        (calculate_hai_score_zero_weights _ (by norm_num) (by norm_num)
          (by norm_num) (by norm_num) rfl rfl rfl rfl), rfl⟩
  · exact ⟨⟨0, 1, 1, 1, 1, 0, 0, 0, 0, 0⟩,
      track_activity_eq (init_hai s) true true true 1 1 1 1 0
        rfl rfl rfl rfl
        (calculate_hai_score_zero_weights _ (by norm_num) (by norm_num)
          (by norm_num) (by norm_num) rfl rfl rfl rfl), rfl⟩

/-- C8 witness: initial score 7777 still collapses to 0 on the first
tracked activity. -/
theorem init_hai_weights_zero_first_track_witness :
    (init_hai 7777).compliance_weight = 0 ∧
    (init_hai 7777).asset_backing_weight = 0 ∧
    (init_hai 7777).economic_value_weight = 0 ∧
    (init_hai 7777).validator_participation_weight = 0 ∧
    (init_hai 7777).compliance_weight + (init_hai 7777).asset_backing_weight
      + (init_hai 7777).economic_value_weight
      + (init_hai 7777).validator_participation_weight ≠ 10000 ∧
    ∃ hai', track_activity (init_hai 7777) true false true = Except.ok hai' ∧
      hai'.current_score = 0 :=
  init_hai_weights_zero_first_track 7777 (by norm_num) true false true

/-- Under a non-overflowing tally sum, the checked vote total of
`execute_proposal` computes the plain sum. -/
theorem vote_total_eq (p : Proposal)
    (hsum : p.for_votes + p.against_votes + p.abstain_votes < 2 ^ 64) :
    (checkedAdd64 p.for_votes p.against_votes).bind
        (fun v => checkedAdd64 v p.abstain_votes)
      = some (p.for_votes + p.against_votes + p.abstain_votes) := by
  have h1 : p.for_votes + p.against_votes < 2 ^ 64 :=
    Nat.lt_of_le_of_lt (Nat.le_add_right _ _) hsum
  rw [checkedAdd64, if_pos h1]
  simp only [Option.some_bind]
  rw [checkedAdd64, if_pos hsum]

/-- C7: `execute_proposal` is legal only on an `Active` proposal after
`now > voting_ends_at`, and then checks in order: Sharia approval when
`affects_sharia` (else `ShariaNotApproved`, regardless of vote totals),
nonzero total votes (else `QuorumNotMet`), and
`for_votes > against_votes` (else `ProposalFailed`); only when all pass
does the status become `Executed`. -/
theorem execute_proposal_exact (p : Proposal) (now : Int)
    (hsum : p.for_votes + p.against_votes + p.abstain_votes < 2 ^ 64) :
    (execute_proposal p now =
        Except.ok { p with status := ProposalStatus.Executed } ↔
      (p.status = ProposalStatus.Active ∧ p.voting_ends_at < now ∧
        (p.affects_sharia = true → p.sharia_approved = true) ∧
        p.for_votes + p.against_votes + p.abstain_votes ≠ 0 ∧
        p.against_votes < p.for_votes)) ∧
    (p.status ≠ ProposalStatus.Active →
      execute_proposal p now = Except.error DaoError.InvalidProposalStatus) ∧
    (p.status = ProposalStatus.Active → ¬ (p.voting_ends_at < now) →
      execute_proposal p now = Except.error DaoError.VotingNotEnded) ∧
    (p.status = ProposalStatus.Active → p.voting_ends_at < now →
      p.affects_sharia = true → p.sharia_approved = false →
      execute_proposal p now = Except.error DaoError.ShariaNotApproved) ∧
    (p.status = ProposalStatus.Active → p.voting_ends_at < now →
      (p.affects_sharia = true → p.sharia_approved = true) →
      p.for_votes + p.against_votes + p.abstain_votes = 0 →
      execute_proposal p now = Except.error DaoError.QuorumNotMet) ∧
    (p.status = ProposalStatus.Active → p.voting_ends_at < now →
      (p.affects_sharia = true → p.sharia_approved = true) →
      p.for_votes + p.against_votes + p.abstain_votes ≠ 0 →
      p.for_votes ≤ p.against_votes →
      execute_proposal p now = Except.error DaoError.ProposalFailed) := by
  refine ⟨⟨?_, ?_⟩, ?_, ?_, ?_, ?_, ?_⟩
  · intro h
    simp only [execute_proposal] at h
    split at h
    · cases h
    · rename_i h1
      split at h
      · cases h
      · rename_i h2
        split at h
        · cases h
        · rename_i h3
          simp only [vote_total_eq p hsum] at h
          split at h
          · cases h
          · rename_i h4
            split at h
            · cases h
            · rename_i h5
              refine ⟨not_not.mp (by simpa using h1), not_not.mp h2,
                ?_, h4, not_not.mp h5⟩
              intro haf
              by_contra hna
              exact h3 ⟨haf, hna⟩
  · rintro ⟨h1, h2, h3, h4, h5⟩
    rw [execute_proposal, if_neg (by simp [h1]), if_neg (not_not_intro h2),
      if_neg (fun hc => (hc.2 (h3 hc.1)))]
    simp only [vote_total_eq p hsum]
    rw [if_neg h4, if_neg (not_not_intro h5)]
  · intro h1
    rw [execute_proposal, if_pos h1]
  · intro h1 h2
    rw [execute_proposal, if_neg (by simp [h1]), if_pos h2]
  · intro h1 h2 h3 h4
    rw [execute_proposal, if_neg (by simp [h1]), if_neg (not_not_intro h2),
      if_pos ⟨h3, by simp [h4]⟩]
  · intro h1 h2 h3 h4
    rw [execute_proposal, if_neg (by simp [h1]), if_neg (not_not_intro h2),
      if_neg (fun hc => (hc.2 (h3 hc.1)))]
    simp only [vote_total_eq p hsum]
    rw [if_pos h4]
  · intro h1 h2 h3 h4 h5
    rw [execute_proposal, if_neg (by simp [h1]), if_neg (not_not_intro h2),
      if_neg (fun hc => (hc.2 (h3 hc.1)))]
    simp only [vote_total_eq p hsum]
    rw [if_neg h4, if_pos (not_lt.mpr h5)]

/-- C7 witness: an `Active`, Sharia-approved proposal with votes 10/3/0
executes after its window closes; the same proposal with
`sharia_approved = false` fails with `ShariaNotApproved` despite winning
the vote. -/
theorem execute_proposal_exact_witness :
    execute_proposal
        ⟨1, 1, 1, 0, true, ProposalStatus.Active, 0, 0, 100, 10, 3, 0, true⟩
        101 =
      Except.ok { (⟨1, 1, 1, 0, true, ProposalStatus.Active, 0, 0, 100,
        10, 3, 0, true⟩ : Proposal) with status := ProposalStatus.Executed } :=
  (execute_proposal_exact
      ⟨1, 1, 1, 0, true, ProposalStatus.Active, 0, 0, 100, 10, 3, 0, true⟩
      101 (by norm_num)).1.mpr
    ⟨rfl, by norm_num, fun _ => rfl, by norm_num, by norm_num⟩

/-- C10: `vote` keeps no per-voter record — its accounts context has
only the dao, the proposal and the voter signer, so the handler is
independent of the voter identity — and therefore the same voter can
call it any number of times inside the voting window: `k` repeated
`For`-votes of weight `w` on an `Active` proposal add the full `k * w`
to `for_votes`, with no duplicate-vote prevention. -/
theorem vote_repeat_accumulates (p : Proposal) (now : Int) (w k : Nat)
    (hst : p.status = ProposalStatus.Active)
    (hwin : now ≤ p.voting_ends_at)
    (hov : p.for_votes + k * w < 2 ^ 64) :
    iterate_vote k p now VoteType.For w =
      Except.ok { p with for_votes := p.for_votes + k * w } := by
  induction k generalizing p with
  | zero => simp [iterate_vote]
  | succ k ih =>
      have hov1 : p.for_votes + w < 2 ^ 64 := by
        have h2 : w ≤ (k + 1) * w := Nat.le_mul_of_pos_left w (Nat.succ_pos k)
        exact Nat.lt_of_le_of_lt (Nat.add_le_add_left h2 _) hov
      have hnp : ¬ (p.status = ProposalStatus.Pending) := by
        rw [hst]
        intro h
        cases h
      have hne : ¬ (p.voting_ends_at < now) := not_lt.mpr hwin
      have hadd : checkedAdd64 p.for_votes w = some (p.for_votes + w) := by
        rw [checkedAdd64, if_pos hov1]
      have hv : vote p now VoteType.For w =
          Except.ok { p with for_votes := p.for_votes + w } := by
        simp only [vote, if_neg (not_not_intro (Or.inl hst)),
          if_neg (show ¬ (p.status = ProposalStatus.Pending ∧
            now < p.voting_starts_at) from fun h => hnp h.1),
          if_neg hnp, if_neg hne, hadd]
      have hov2 : { p with for_votes := p.for_votes + w }.for_votes
          + k * w < 2 ^ 64 := by
        show p.for_votes + w + k * w < 2 ^ 64
        rw [show p.for_votes + w + k * w = p.for_votes + (k + 1) * w from
          by ring]
        exact hov
      simp only [iterate_vote, hv]
      rw [show p.for_votes + (k + 1) * w = p.for_votes + w + k * w from by ring]
      exact ih { p with for_votes := p.for_votes + w } hst hwin hov2

/-- C10 witness: three repeated votes of weight 10 on an `Active`
proposal raise `for_votes` from 5 to 35. -/
theorem vote_repeat_accumulates_witness :
    iterate_vote 3
        ⟨2, 1, 1, 0, false, ProposalStatus.Active, 0, 0, 1000, 5, 3, 2, true⟩
        500 VoteType.For 10 =
      Except.ok { (⟨2, 1, 1, 0, false, ProposalStatus.Active, 0, 0, 1000,
        5, 3, 2, true⟩ : Proposal) with for_votes := 5 + 3 * 10 } :=
  vote_repeat_accumulates
    ⟨2, 1, 1, 0, false, ProposalStatus.Active, 0, 0, 1000, 5, 3, 2, true⟩
    500 10 3 rfl (by norm_num) (by norm_num)

end Amana
